import Mathlib

/-!
Verification of the FARMER query lifecycle and escalation state machine.

The definitions below are a shallow embedding of the backend code:
  - the Query mongoose schema (backend/models/Query.js), with its enum and
    range validators that mongoose runs on save;
  - the farmer routes POST /api/query/ask, PUT /api/query/:id/resolve,
    PUT /api/query/:id/escalate and the officer route
    PUT /api/query/officer/:id/respond (backend/routes/query.js);
  - the alternate officer routes POST /api/officer/respond/:id and
    PUT /api/officer/resolve/:id (the officer route file).

Timestamps are modelled as natural numbers supplied by the caller (the
value of new Date() at the time of the operation).  The external AI
collaborator of the ask route is modelled as an argument of type
Except Unit String carrying the already formatted advice text (the spec
treats AI advice generation as a black box returning formed text, and the
formatting helper is outside the modelled core).  Persistence is modelled
by a save function that applies the schema validators, and an external
persistence failure during ask is modelled by a boolean dbOk argument.
-/

namespace Farmer

/-- Nested escalation subdocument of the Query schema (the legacy mirror). -/
structure Escalation where
  isEscalated : Bool
  status : String
  reason : String
  requestedAt : Option Nat
  requestedBy : Option Nat
  officerId : Option Nat
  officerReply : String
  officerNotes : String
  repliedAt : Option Nat
deriving DecidableEq, Repr

/-- The Query record of backend/models/Query.js (core fields; the advisory
ai_result subdocument has no transition impact and is omitted). -/
structure Query where
  userId : Nat
  question : String
  response : String
  category : String
  language : String
  resolved : Bool
  rating : Option Nat
  resolvedBy : Option String
  escalated : Bool
  status : String
  escalationStatus : Option String
  escalationReason : Option String
  escalationNotes : Option String
  escalatedAt : Option Nat
  resolvedAt : Option Nat
  officerId : Option Nat
  officerResponse : String
  officerUpdatedAt : Option Nat
  escalation : Escalation
deriving DecidableEq, Repr

/-- Errors surfaced by the route handlers: 400 bad input, 404, 403,
a mongoose validation failure raised by save, and the AI collaborator
failing. -/
inductive QErr where
  | validationError
  | notFound
  | forbidden
  | saveError
  | aiUnavailable
deriving DecidableEq, Repr

/-- Enum of the flat status field in the Query schema. -/
def statusEnum : List String :=
  ["normal", "escalated", "in_review", "resolved", "resolved_by_officer"]

/-- Enum of the flat escalationStatus field (null is modelled as none). -/
def escalationStatusEnum : List String :=
  ["pending", "escalated", "in_review", "resolved_by_officer"]

/-- Enum of resolvedBy (null is modelled as none). -/
def resolvedByEnum : List String := ["farmer", "officer", "system"]

/-- Enum of the nested escalation.status field. -/
def nestedStatusEnum : List String :=
  ["pending", "assigned", "in_review", "replied", "closed"]

/-- Validator for an optional enum field: mongoose skips the enum check
when the value is null or undefined. -/
def validOptStr (allowed : List String) : Option String → Bool
  | none => true
  | some s => allowed.contains s

/-- Validator for the rating field (min 1, max 5 in the schema). -/
def validRating : Option Nat → Bool
  | none => true
  | some r => decide (1 ≤ r) && decide (r ≤ 5)

/-- The schema validation mongoose runs on save: required nonempty
question, the four enum fields, and the rating range. -/
def validQuery (q : Query) : Bool :=
  (!q.question.isEmpty)
  && statusEnum.contains q.status
  && validOptStr escalationStatusEnum q.escalationStatus
  && validOptStr resolvedByEnum q.resolvedBy
  && validRating q.rating
  && nestedStatusEnum.contains q.escalation.status

/-- Persisting a document: document.save() runs the schema validators and
rejects the write when any of them fails. -/
def save (q : Query) : Except QErr Query :=
  if validQuery q then Except.ok q else Except.error QErr.saveError

/-- JavaScript s1 || s2 on an optional string: the default is taken both
when the value is absent and when it is the empty string (falsy). -/
def jsOr (s : Option String) (d : String) : String :=
  match s with
  | some v => if v = "" then d else v
  | none => d

/-- JavaScript s.trim(): strip leading and trailing whitespace (written
over the character list so that proofs can evaluate it). -/
def trimStr (s : String) : String :=
  String.mk
    (((s.toList.dropWhile Char.isWhitespace).reverse.dropWhile
      Char.isWhitespace).reverse)

/-- JavaScript truthiness test notes && notes.trim() for an optional
string: present and nonempty after trimming. -/
def jsNonBlank (s : Option String) : Bool :=
  match s with
  | some v => !((trimStr v).isEmpty)
  | none => false

/-- Substring search on character lists (JavaScript String.includes). -/
def listHasPrefix : List Char → List Char → Bool
  | [], _ => true
  | _ :: _, [] => false
  | p :: ps, c :: cs => p == c && listHasPrefix ps cs

/-- Does pat occur as a contiguous substring of s. -/
def listContainsSub (pat : List Char) : List Char → Bool
  | [] => pat.isEmpty
  | c :: cs => listHasPrefix pat (c :: cs) || listContainsSub pat cs

/-- JavaScript s.includes(pat). -/
def strContains (s pat : String) : Bool :=
  listContainsSub pat.toList s.toList

/-- JavaScript s.toLowerCase() (over the character list so that proofs
can evaluate it). -/
def lowerStr (s : String) : String :=
  String.mk (s.toList.map Char.toLower)

/-- detectCategory of backend/routes/query.js: ordered keyword tests on
the lowercased question, first match wins, else general. -/
def detectCategory (question : String) : String :=
  let lq := lowerStr question
  if strContains lq "disease" || strContains lq "pest"
      || strContains lq "fungus" || strContains lq "insect" then
    "disease"
  else if strContains lq "weather" || strContains lq "rain"
      || strContains lq "season" || strContains lq "climate" then
    "weather"
  else if strContains lq "price" || strContains lq "market"
      || strContains lq "sell" || strContains lq "cost" then
    "market"
  else if strContains lq "crop" || strContains lq "seed"
      || strContains lq "fertilizer" || strContains lq "harvest" then
    "farming"
  else
    "general"

/-- The new Query document literal built by the ask route (question
already trimmed, category from detectCategory). -/
def mkNewQuery (userId : Nat) (question response category language : String) :
    Query :=
  { userId := userId
    question := question
    response := response
    category := category
    language := language
    resolved := false
    rating := none
    resolvedBy := none
    escalated := false
    status := "normal"
    escalationStatus := none
    escalationReason := none
    escalationNotes := none
    escalatedAt := none
    resolvedAt := none
    officerId := none
    officerResponse := ""
    officerUpdatedAt := none
    escalation :=
      { isEscalated := false
        status := "pending"
        reason := ""
        requestedAt := none
        requestedBy := some userId
        officerId := none
        officerReply := ""
        officerNotes := ""
        repliedAt := none } }

/-- Outcome of the ask route: 400 for a blank question, 500 when the AI
call throws, otherwise a 200 JSON response carrying the advice text; the
saved field records whether a Query document was actually persisted. -/
inductive AskResult where
  | badRequest
  | aiError
  | success (response : String) (saved : Option Query)
deriving DecidableEq, Repr

/-- POST /api/query/ask.  The question is checked first; the AI
collaborator is then consulted; on success a new Query is built and
saved, and a database failure during that save is caught, only logged,
and the route still answers 200 with the advice text. -/
def ask (userId : Nat) (question language : String)
    (ai : Except Unit String) (dbOk : Bool) : AskResult :=
  if (trimStr question).isEmpty then AskResult.badRequest
  else
    match ai with
    | Except.error _ => AskResult.aiError
    | Except.ok text =>
      let nq := mkNewQuery userId (trimStr question) text
        (detectCategory question) language
      match (if dbOk then save nq else Except.error QErr.saveError) with
      | Except.ok q => AskResult.success text (some q)
      | Except.error _ => AskResult.success text none

/-- State change of PUT /api/query/:id/resolve: the farmer marks the
query resolved; the rating is stored only when truthy and within 1..5. -/
def farmerResolveApply (q : Query) (rating : Option Nat) (now : Nat) :
    Query :=
  { q with
    resolved := true
    status := "resolved"
    resolvedBy := some "farmer"
    resolvedAt := some (q.resolvedAt.getD now)
    rating :=
      match rating with
      | some r => if 1 ≤ r ∧ r ≤ 5 then some r else q.rating
      | none => q.rating }

/-- PUT /api/query/:id/resolve for a query owned by the caller: apply the
mutation and save. -/
def farmerResolve (q : Query) (rating : Option Nat) (now : Nat) :
    Except QErr Query :=
  save (farmerResolveApply q rating now)

/-- State change of PUT /api/query/:id/escalate: flat fields and the
nested legacy mirror. -/
def escalateApply (q : Query) (reason notes : Option String)
    (userId now : Nat) : Query :=
  { q with
    escalated := true
    status := "escalated"
    escalationStatus := some "pending"
    escalationReason := some (jsOr reason "Farmer requested officer review")
    escalationNotes :=
      if jsNonBlank notes then some (trimStr (notes.getD ""))
      else q.escalationNotes
    escalatedAt := some (q.escalatedAt.getD now)
    escalation :=
      { q.escalation with
        isEscalated := true
        status := "pending"
        reason := jsOr reason "Farmer requested officer review"
        requestedAt := some (q.escalation.requestedAt.getD now)
        requestedBy := some userId
        officerNotes :=
          if jsNonBlank notes then trimStr (notes.getD "")
          else q.escalation.officerNotes } }

/-- PUT /api/query/:id/escalate for a query owned by the caller: apply
the mutation and save. -/
def escalate (q : Query) (reason notes : Option String) (userId now : Nat) :
    Except QErr Query :=
  save (escalateApply q reason notes userId now)

/-- State change of PUT /api/query/officer/:id/respond: flat fields and
the nested mirror; markResolved true additionally resolves the query. -/
def officerRespondApply (q : Query) (officerResponse : String)
    (markResolved : Bool) (officerNotes : Option String)
    (officerId now : Nat) : Query :=
  { q with
    officerResponse := trimStr officerResponse
    officerUpdatedAt := some now
    escalationStatus :=
      some (if markResolved then "resolved_by_officer" else "in_review")
    status := if markResolved then "resolved" else "escalated"
    escalated := true
    officerId := some officerId
    resolved := if markResolved then true else q.resolved
    resolvedBy := if markResolved then some "officer" else q.resolvedBy
    resolvedAt :=
      if markResolved then some (q.resolvedAt.getD now) else q.resolvedAt
    escalationNotes :=
      if jsNonBlank officerNotes then some (trimStr (officerNotes.getD ""))
      else q.escalationNotes
    escalation :=
      { q.escalation with
        isEscalated := true
        status := if markResolved then "replied" else "in_review"
        officerId := some officerId
        officerReply := trimStr officerResponse
        officerNotes :=
          if jsNonBlank officerNotes then trimStr (officerNotes.getD "")
          else q.escalation.officerNotes
        repliedAt := some now } }

/-- PUT /api/query/officer/:id/respond, after the officer role check and
the 404 lookup: 400 when the reply is blank, otherwise apply the
mutation (no state precondition of any kind) and save. -/
def officerRespond (q : Query) (officerResponse : String)
    (markResolved : Bool) (officerNotes : Option String)
    (officerId now : Nat) : Except QErr Query :=
  if (trimStr officerResponse).isEmpty then Except.error QErr.validationError
  else save (officerRespondApply q officerResponse markResolved
    officerNotes officerId now)

/-- POST /api/officer/respond/:id of the alternate officer route file:
404 unless the query is escalated, then writes status and
escalationStatus the string officer-replied and saves. -/
def officerRespondAlt (q : Query) (reply : String) (officerId now : Nat) :
    Except QErr Query :=
  if (trimStr reply).isEmpty then Except.error QErr.validationError
  else if !q.escalated then Except.error QErr.notFound
  else save { q with
    officerResponse := trimStr reply
    officerId := some officerId
    status := "officer-replied"
    escalationStatus := some "officer-replied"
    officerUpdatedAt := some now }

/-- PUT /api/officer/resolve/:id of the alternate officer route file:
404 unless the query is escalated, then marks resolved with
escalationStatus the string resolved (and resolvedAt overwritten
unconditionally) and saves. -/
def officerForceResolve (q : Query) (now : Nat) : Except QErr Query :=
  if !q.escalated then Except.error QErr.notFound
  else save { q with
    resolved := true
    status := "resolved"
    escalationStatus := some "resolved"
    resolvedAt := some now }

/-- The invariant of the spec: resolved equals membership of status in
the terminal set. -/
def statusResolvedEquiv (q : Query) : Bool :=
  q.resolved == (q.status == "resolved" || q.status == "resolved_by_officer")

/-- Modelled from the spec: the ordered keyword rule list of the ask
classification policy (disease keywords, then weather, market, farming). -/
def specCategoryRules : List (String × List String) :=
  [("disease", ["disease", "pest", "fungus", "insect"]),
   ("weather", ["weather", "rain", "season", "climate"]),
   ("market", ["price", "market", "sell", "cost"]),
   ("farming", ["crop", "seed", "fertilizer", "harvest"])]

/-- Modelled from the spec: first matching category among the ordered
rule list, else general; a rule matches when one of its keywords occurs
in the lowercased question. -/
def specDetectCategory (question : String) : String :=
  match specCategoryRules.find?
      (fun rule => rule.2.any (fun k => strContains (lowerStr question) k)) with
  | some rule => rule.1
  | none => "general"

/-- A freshly asked query, as built by the ask route. -/
def exampleAsked : Query :=
  mkNewQuery 1 "water rice" "Water early in the morning"
    (detectCategory "water rice") "en"

/-- The asked query after the farmer resolved it (a terminal state). -/
def exampleResolved : Query := farmerResolveApply exampleAsked none 10

/-- The asked query after the farmer escalated it. -/
def exampleEscalated : Query :=
  escalateApply exampleAsked (some "answer unclear") none 1 20

end Farmer

deriving instance DecidableEq for Except

namespace Farmer

theorem save_eq_ok {q q' : Query} (h : save q = Except.ok q') :
    q' = q ∧ validQuery q = true := by
  unfold save at h
  split at h <;> simp_all

theorem save_ok_of_valid {q : Query} (h : validQuery q = true) :
    save q = Except.ok q := by
  unfold save
  simp [h]

/-- Claim C9: for every question text, the ask classification equals the
first matching category among the ordered rule list (disease, weather,
market, farming keywords) and general when no rule matches; it is a
function of the question text alone. -/
theorem validQuery_farmerResolveApply {q : Query} (rating : Option Nat)
    (now : Nat) (h : validQuery q = true) :
    validQuery (farmerResolveApply q rating now) = true := by
  simp only [validQuery, Bool.and_eq_true] at h ⊢
  obtain ⟨⟨⟨⟨⟨h1, h2⟩, h3⟩, h4⟩, h5⟩, h6⟩ := h
  refine ⟨⟨⟨⟨⟨h1,
    (by decide : statusEnum.contains "resolved" = true)⟩, h3⟩,
    (by decide : validOptStr resolvedByEnum (some "farmer") = true)⟩, ?_⟩, h6⟩
  show validRating (farmerResolveApply q rating now).rating = true
  match rating with
  | none => exact h5
  | some r =>
    by_cases hir : 1 ≤ r ∧ r ≤ 5
    · simp [farmerResolveApply, validRating, hir, hir.1, hir.2]
    · simpa [farmerResolveApply, hir] using h5

theorem validQuery_escalateApply {q : Query} (reason notes : Option String)
    (userId now : Nat) (h : validQuery q = true) :
    validQuery (escalateApply q reason notes userId now) = true := by
  simp only [validQuery, Bool.and_eq_true] at h ⊢
  obtain ⟨⟨⟨⟨⟨h1, h2⟩, h3⟩, h4⟩, h5⟩, h6⟩ := h
  exact ⟨⟨⟨⟨⟨h1,
    (by decide : statusEnum.contains "escalated" = true)⟩,
    (by decide : validOptStr escalationStatusEnum (some "pending") = true)⟩,
    h4⟩, h5⟩,
    (by decide : nestedStatusEnum.contains "pending" = true)⟩

theorem validQuery_officerRespondApply {q : Query} (resp : String)
    (mk : Bool) (onotes : Option String) (oid now : Nat)
    (h : validQuery q = true) :
    validQuery (officerRespondApply q resp mk onotes oid now) = true := by
  simp only [validQuery, Bool.and_eq_true] at h ⊢
  obtain ⟨⟨⟨⟨⟨h1, h2⟩, h3⟩, h4⟩, h5⟩, h6⟩ := h
  refine ⟨⟨⟨⟨⟨h1, ?_⟩, ?_⟩, ?_⟩, h5⟩, ?_⟩
  · cases mk
    · exact (by decide : statusEnum.contains "escalated" = true)
    · exact (by decide : statusEnum.contains "resolved" = true)
  · cases mk
    · exact
        (by decide : validOptStr escalationStatusEnum (some "in_review") = true)
    · exact (by decide :
        validOptStr escalationStatusEnum (some "resolved_by_officer") = true)
  · cases mk
    · exact h4
    · exact (by decide : validOptStr resolvedByEnum (some "officer") = true)
  · cases mk
    · exact (by decide : nestedStatusEnum.contains "in_review" = true)
    · exact (by decide : nestedStatusEnum.contains "replied" = true)

theorem farmerResolve_ok (q : Query) (rating : Option Nat) (now : Nat)
    (hv : validQuery q = true) :
    farmerResolve q rating now
      = Except.ok (farmerResolveApply q rating now) :=
  save_ok_of_valid (validQuery_farmerResolveApply rating now hv)

theorem escalate_ok (q : Query) (reason notes : Option String)
    (userId now : Nat) (hv : validQuery q = true) :
    escalate q reason notes userId now
      = Except.ok (escalateApply q reason notes userId now) :=
  save_ok_of_valid (validQuery_escalateApply reason notes userId now hv)

theorem officerRespond_ok (q : Query) (resp : String) (mk : Bool)
    (onotes : Option String) (oid now : Nat) (hv : validQuery q = true)
    (hresp : (trimStr resp).isEmpty = false) :
    officerRespond q resp mk onotes oid now
      = Except.ok (officerRespondApply q resp mk onotes oid now) := by
  unfold officerRespond
  simp only [hresp, Bool.false_eq_true, if_false]
  exact save_ok_of_valid (validQuery_officerRespondApply resp mk onotes oid now hv)

theorem officerRespondAlt_saveError (q : Query) (reply : String)
    (oid now : Nat) (hesc : q.escalated = true)
    (hreply : (trimStr reply).isEmpty = false) :
    officerRespondAlt q reply oid now = Except.error QErr.saveError := by
  unfold officerRespondAlt
  simp [hreply, hesc, save, validQuery]
  intro _ hmem
  exact absurd hmem (by decide)

theorem officerForceResolve_saveError (q : Query) (now : Nat)
    (hesc : q.escalated = true) :
    officerForceResolve q now = Except.error QErr.saveError := by
  unfold officerForceResolve
  simp [hesc, save, validQuery, validOptStr]
  intro _ _ hmem
  exact absurd hmem (by decide)

theorem C9_detectCategory_first_match (question : String) :
    detectCategory question = specDetectCategory question := by
  simp only [detectCategory, specDetectCategory, specCategoryRules,
    List.find?, List.any_cons, List.any_nil, Bool.or_false]
  cases hd : (strContains (lowerStr question) "disease"
      || (strContains (lowerStr question) "pest"
      || (strContains (lowerStr question) "fungus"
      || strContains (lowerStr question) "insect"))) <;>
  cases hw : (strContains (lowerStr question) "weather"
      || (strContains (lowerStr question) "rain"
      || (strContains (lowerStr question) "season"
      || strContains (lowerStr question) "climate"))) <;>
  cases hm : (strContains (lowerStr question) "price"
      || (strContains (lowerStr question) "market"
      || (strContains (lowerStr question) "sell"
      || strContains (lowerStr question) "cost"))) <;>
  cases hf : (strContains (lowerStr question) "crop"
      || (strContains (lowerStr question) "seed"
      || (strContains (lowerStr question) "fertilizer"
      || strContains (lowerStr question) "harvest"))) <;>
    simp_all [Bool.or_eq_false_iff, or_assoc]

/-- Claim C4 counterexample: with the store failing, ask still reports
success carrying the AI text, with no persisted Query; the store failure
is not propagated. -/
theorem C4_counterexample :
    ask 1 "water rice" "en" (Except.ok "Water early in the morning") false
      = AskResult.success "Water early in the morning" none := by decide

/-- Claim C4 amended: a store-layer failure during ask is caught and only
logged; the operation still reports success with the AI answer and no
persisted Query, for every nonblank question. -/
theorem C4_amended_ask_swallows_store_failure
    (userId : Nat) (question language text : String)
    (h : (trimStr question).isEmpty = false) :
    ask userId question language (Except.ok text) false
      = AskResult.success text none := by
  unfold ask
  simp [h]

theorem C4_witness :
    ask 2 "brown spots on paddy" "en" (Except.ok "Spray advice") false
      = AskResult.success "Spray advice" none :=
  C4_amended_ask_swallows_store_failure 2 "brown spots on paddy" "en"
    "Spray advice" (by decide)

/-- Claim C8: when the AI collaborator call fails, the whole ask
operation fails and no Query record is reported as created. -/
theorem C8_ai_failure_no_query (userId : Nat) (question language : String)
    (dbOk : Bool) (h : (trimStr question).isEmpty = false) :
    ask userId question language (Except.error ()) dbOk = AskResult.aiError
    ∧ ∀ text saved, ask userId question language (Except.error ()) dbOk
        ≠ AskResult.success text saved := by
  unfold ask
  simp [h]

theorem C8_witness :
    ask 1 "water rice" "en" (Except.error ()) true = AskResult.aiError
    ∧ ∀ text saved, ask 1 "water rice" "en" (Except.error ()) true
        ≠ AskResult.success text saved :=
  C8_ai_failure_no_query 1 "water rice" "en" true (by decide)

end Farmer

namespace Farmer

theorem validQuery_mkNewQuery (userId : Nat)
    (question response category language : String)
    (h : question.isEmpty = false) :
    validQuery (mkNewQuery userId question response category language)
      = true := by
  simp [validQuery, mkNewQuery, validOptStr, validRating, h]
  decide

theorem ask_saved_eq {userId : Nat} {question language : String}
    {ai : Except Unit String} {dbOk : Bool} {nq : Query} {rtext : String}
    (h : ask userId question language ai dbOk
      = AskResult.success rtext (some nq)) :
    nq = mkNewQuery userId (trimStr question) rtext
      (detectCategory question) language := by
  unfold ask at h
  cases he : (trimStr question).isEmpty
  · rw [he] at h
    cases ai with
    | error e => simp at h
    | ok text =>
      simp only [Bool.false_eq_true, if_false] at h
      cases hdb : dbOk
      · rw [hdb] at h
        simp at h
      · rw [hdb] at h
        rw [if_pos rfl] at h
        rw [save_ok_of_valid (validQuery_mkNewQuery userId (trimStr question)
          text (detectCategory question) language (by simp [he]))] at h
        simp at h
        obtain ⟨h1, h2⟩ := h
        rw [← h1, h2]
  · rw [he] at h
    simp at h

/-- Claim C1 counterexample: escalating a query whose resolved flag is
already true persists a record with resolved true and status escalated,
so resolved no longer matches membership of status in the terminal set. -/
theorem C1_counterexample :
    (escalate exampleResolved (some "answer unclear") none 1 20).map
      statusResolvedEquiv = Except.ok false := by decide

/-- Claim C1 amended: the equivalence between resolved and a status of
resolved or resolved_by_officer is established by ask, farmer-resolve
and officer-respond with markResolved true, and is preserved by escalate
and by officer-respond with markResolved false exactly when the query is
not already resolved; applied to an already resolved query those two
operations keep resolved true while setting status to escalated,
breaking the equivalence. -/
theorem C1_amended_resolved_status_equiv (q : Query) (rating : Option Nat)
    (reason notes onotes : Option String) (resp : String)
    (userId officerId now askUserId : Nat) (askQ askLang : String)
    (ai : Except Unit String) (dbOk : Bool) :
    (∀ text nq, ask askUserId askQ askLang ai dbOk
        = AskResult.success text (some nq) → statusResolvedEquiv nq = true)
    ∧ (∀ q', farmerResolve q rating now = Except.ok q' →
        statusResolvedEquiv q' = true)
    ∧ (∀ q', officerRespond q resp true onotes officerId now = Except.ok q' →
        statusResolvedEquiv q' = true)
    ∧ (q.resolved = false → ∀ q', escalate q reason notes userId now
        = Except.ok q' → statusResolvedEquiv q' = true)
    ∧ (q.resolved = false → ∀ q',
        officerRespond q resp false onotes officerId now = Except.ok q' →
        statusResolvedEquiv q' = true)
    ∧ (q.resolved = true → ∀ q', escalate q reason notes userId now
        = Except.ok q' → q'.resolved = true ∧ q'.status = "escalated"
        ∧ statusResolvedEquiv q' = false) := by
  refine ⟨?_, ?_, ?_, ?_, ?_, ?_⟩
  · intro text nq h
    rw [ask_saved_eq h]
    rfl
  · intro q' h
    obtain ⟨rfl, -⟩ := save_eq_ok h
    rfl
  · intro q' h
    unfold officerRespond at h
    split at h
    · simp at h
    · obtain ⟨rfl, -⟩ := save_eq_ok h
      rfl
  · intro hres q' h
    obtain ⟨rfl, -⟩ := save_eq_ok h
    simp [statusResolvedEquiv, escalateApply, hres]
  · intro hres q' h
    unfold officerRespond at h
    split at h
    · simp at h
    · obtain ⟨rfl, -⟩ := save_eq_ok h
      simp [statusResolvedEquiv, officerRespondApply, hres]
  · intro hres q' h
    obtain ⟨rfl, -⟩ := save_eq_ok h
    refine ⟨hres, rfl, ?_⟩
    simp [statusResolvedEquiv, escalateApply, hres]

theorem C1_witness : statusResolvedEquiv exampleResolved = true := by
  have h := C1_amended_resolved_status_equiv exampleAsked none none none none
    "r" 1 9 10 1 "water rice" "en" (Except.ok "t") true
  exact h.2.1 exampleResolved (by decide)

/-- Claim C2 counterexample: officer respond with markResolved false on
an escalated query sets the flat status field to escalated, not to
in_review; in_review is written only to escalationStatus. -/
theorem C2_counterexample :
    (officerRespond exampleEscalated "Use neem oil" false none 9 30).map
        Query.status = Except.ok "escalated"
    ∧ (officerRespond exampleEscalated "Use neem oil" false none 9 30).map
        Query.status ≠ Except.ok "in_review" := by decide

/-- Claim C2 amended: on an escalated or in-review query, officer respond
with markResolved false sets escalationStatus to in_review while the flat
status becomes escalated (resolved stays false, officerResponse set), and
with markResolved true sets escalationStatus to resolved_by_officer while
the flat status becomes resolved (resolved true, resolvedBy officer). -/
theorem C2_amended_officer_respond (q : Query) (resp : String)
    (onotes : Option String) (officerId now : Nat)
    (hv : validQuery q = true)
    (_hs : q.status = "escalated" ∨ q.status = "in_review")
    (hres : q.resolved = false)
    (hresp : (trimStr resp).isEmpty = false) :
    (∃ q1, officerRespond q resp false onotes officerId now = Except.ok q1
      ∧ q1.escalationStatus = some "in_review"
      ∧ q1.status = "escalated"
      ∧ q1.resolved = false
      ∧ q1.officerResponse = trimStr resp)
    ∧ (∃ q2, officerRespond q resp true onotes officerId now = Except.ok q2
      ∧ q2.escalationStatus = some "resolved_by_officer"
      ∧ q2.status = "resolved"
      ∧ q2.resolved = true
      ∧ q2.resolvedBy = some "officer"
      ∧ q2.officerResponse = trimStr resp) :=
  ⟨⟨officerRespondApply q resp false onotes officerId now,
      officerRespond_ok q resp false onotes officerId now hv hresp,
      rfl, rfl, hres, rfl⟩,
    ⟨officerRespondApply q resp true onotes officerId now,
      officerRespond_ok q resp true onotes officerId now hv hresp,
      rfl, rfl, rfl, rfl, rfl⟩⟩

theorem C2_witness :
    (officerRespond exampleEscalated "Use neem oil" true none 9 30).map
      Query.resolvedBy = Except.ok (some "officer") := by
  obtain ⟨-, q2, he, -, -, -, h4, -⟩ :=
    C2_amended_officer_respond exampleEscalated "Use neem oil" none 9 30
      (by decide) (Or.inl (by decide)) (by decide) (by decide)
  rw [he]
  simp [h4, Except.map]

/-- Claim C3 counterexample: officer respond on a terminal
farmer-resolved query does not fail with InvalidTransition: it succeeds
and overwrites officerResponse. -/
theorem C3_counterexample :
    (officerRespond exampleResolved "Checked the field" false none 9 30).map
        Query.officerResponse = Except.ok "Checked the field"
    ∧ exampleResolved.officerResponse ≠ "Checked the field" := by decide

/-- Claim C3 amended: the officer respond route has no terminal-state
check: on a resolved query it succeeds and overwrites officerResponse,
officerUpdatedAt and status (escalated when markResolved is false, while
resolved stays true); only the alternate officer respond route fails on
such a query, and that with a schema validation error raised for every
escalated query, not an InvalidTransition check. -/
theorem C3_amended_no_terminal_check (q : Query) (resp reply : String)
    (mk : Bool) (onotes : Option String) (oid oid2 now : Nat)
    (hv : validQuery q = true) (hterm : q.resolved = true)
    (hresp : (trimStr resp).isEmpty = false) :
    (∃ q', officerRespond q resp mk onotes oid now = Except.ok q'
      ∧ q'.officerResponse = trimStr resp
      ∧ q'.officerUpdatedAt = some now
      ∧ q'.resolved = true
      ∧ q'.status = (if mk then "resolved" else "escalated"))
    ∧ ((trimStr reply).isEmpty = false → q.escalated = true →
        officerRespondAlt q reply oid2 now = Except.error QErr.saveError) := by
  constructor
  · refine ⟨officerRespondApply q resp mk onotes oid now,
      officerRespond_ok q resp mk onotes oid now hv hresp, rfl, rfl, ?_, rfl⟩
    cases mk
    · exact hterm
    · rfl
  · intro hr he
    exact officerRespondAlt_saveError q reply oid2 now he hr

theorem C3_witness :
    (officerRespond exampleResolved "Checked" false none 9 30).map
      Query.resolved = Except.ok true := by
  obtain ⟨⟨q', he, -, -, h3, -⟩, -⟩ :=
    C3_amended_no_terminal_check exampleResolved "Checked" "r" false none 9 9
      30 (by decide) (by decide) (by decide)
  rw [he]
  simp [h3, Except.map]

end Farmer

namespace Farmer

/-- Claim C5: resolvedAt is written at most once: the first resolving
operation stamps it with the current time, a later farmer-resolve or
officer-respond with markResolved true keeps the stored value, and the
alternate officer force-resolve never returns success (its save always
fails schema validation), so it never changes the stored resolvedAt. -/
theorem C5_resolvedAt_write_once (q : Query) (rating : Option Nat)
    (resp : String) (onotes : Option String) (oid now t : Nat) :
    (q.resolvedAt = none →
      (∀ q', farmerResolve q rating now = Except.ok q' →
        q'.resolvedAt = some now)
      ∧ (∀ q', officerRespond q resp true onotes oid now = Except.ok q' →
        q'.resolvedAt = some now))
    ∧ (q.resolvedAt = some t →
      (∀ q', farmerResolve q rating now = Except.ok q' →
        q'.resolvedAt = some t)
      ∧ (∀ q', officerRespond q resp true onotes oid now = Except.ok q' →
        q'.resolvedAt = some t))
    ∧ (∀ q', officerForceResolve q now ≠ Except.ok q') := by
  refine ⟨?_, ?_, ?_⟩
  · intro hn
    constructor
    · intro q' h
      obtain ⟨rfl, -⟩ := save_eq_ok h
      simp [farmerResolveApply, hn]
    · intro q' h
      unfold officerRespond at h
      split at h
      · simp at h
      · obtain ⟨rfl, -⟩ := save_eq_ok h
        simp [officerRespondApply, hn]
  · intro hsome
    constructor
    · intro q' h
      obtain ⟨rfl, -⟩ := save_eq_ok h
      simp [farmerResolveApply, hsome]
    · intro q' h
      unfold officerRespond at h
      split at h
      · simp at h
      · obtain ⟨rfl, -⟩ := save_eq_ok h
        simp [officerRespondApply, hsome]
  · intro q' h
    cases hesc : q.escalated
    · unfold officerForceResolve at h
      rw [hesc] at h
      simp at h
    · rw [officerForceResolve_saveError q now hesc] at h
      simp at h

theorem C5_witness :
    (officerRespondApply exampleResolved "All good" true none 9 42).resolvedAt
      = some 10 := by
  obtain ⟨-, hsome, -⟩ :=
    C5_resolvedAt_write_once exampleResolved none "All good" none 9 42 10
  exact (hsome (by decide)).2 _ (by decide)

/-- Claim C6: escalate is idempotent on escalatedAt: the first escalation
stamps it, escalating a query whose escalatedAt is already set keeps the
stored value whatever the reason, and in particular a second escalate
yields the same escalatedAt as the first. -/
theorem C6_escalatedAt_idempotent (q : Query) (r1 n1 r2 n2 : Option String)
    (userId t1 t2 t : Nat) :
    (q.escalatedAt = none → ∀ q', escalate q r1 n1 userId t1 = Except.ok q' →
      q'.escalatedAt = some t1)
    ∧ (q.escalatedAt = some t → ∀ q', escalate q r1 n1 userId t1
        = Except.ok q' → q'.escalatedAt = some t)
    ∧ (∀ q1 q2, escalate q r1 n1 userId t1 = Except.ok q1 →
        escalate q1 r2 n2 userId t2 = Except.ok q2 →
        q2.escalatedAt = q1.escalatedAt) := by
  refine ⟨?_, ?_, ?_⟩
  · intro hn q' h
    obtain ⟨rfl, -⟩ := save_eq_ok h
    simp [escalateApply, hn]
  · intro hsome q' h
    obtain ⟨rfl, -⟩ := save_eq_ok h
    simp [escalateApply, hsome]
  · intro q1 q2 h1 h2
    obtain ⟨rfl, -⟩ := save_eq_ok h1
    obtain ⟨rfl, -⟩ := save_eq_ok h2
    simp [escalateApply]

theorem C6_witness :
    (escalateApply exampleEscalated (some "still unclear") none 1
      77).escalatedAt = exampleEscalated.escalatedAt := by
  obtain ⟨-, -, h⟩ :=
    C6_escalatedAt_idempotent exampleAsked (some "answer unclear") none
      (some "still unclear") none 1 20 77 0
  exact h exampleEscalated
    (escalateApply exampleEscalated (some "still unclear") none 1 77)
    (by decide) (by decide)

/-- Claim C7 counterexample: farmer-resolve with the out-of-range rating
7 does not fail with ValidationError: it succeeds, marks the query
resolved and silently drops the rating. -/
theorem C7_counterexample :
    (farmerResolve exampleAsked (some 7) 50).map
      (fun q => (q.rating, q.resolved)) = Except.ok (none, true) := by decide

/-- Claim C7 amended: a rating outside 1..5 supplied to farmer-resolve is
silently ignored rather than rejected: the operation succeeds, resolved
is set, status becomes resolved, and the stored rating is unchanged. -/
theorem C7_amended_rating_silently_dropped (q : Query) (r now : Nat)
    (hv : validQuery q = true) (hr : ¬(1 ≤ r ∧ r ≤ 5)) :
    ∃ q', farmerResolve q (some r) now = Except.ok q'
      ∧ q'.rating = q.rating ∧ q'.resolved = true
      ∧ q'.status = "resolved" := by
  refine ⟨farmerResolveApply q (some r) now,
    farmerResolve_ok q (some r) now hv, ?_, rfl, rfl⟩
  simp [farmerResolveApply, hr]

theorem C7_witness :
    (farmerResolve exampleAsked (some 0) 50).map Query.rating
      = Except.ok none := by
  obtain ⟨q', he, h1, -, -⟩ :=
    C7_amended_rating_silently_dropped exampleAsked 0 50 (by decide)
      (by decide)
  rw [he]
  simp [Except.map, h1, exampleAsked, mkNewQuery]

/-- Claim C10: the alternate officer routes can never persist a state
change: on every escalated query the respond route writes status
officer-replied and the force-resolve route writes escalationStatus
resolved, values outside the schema enums, so the save always fails
schema validation and both requests return an error. -/
theorem C10_alt_routes_never_persist (q : Query) (reply : String)
    (oid now : Nat) (hesc : q.escalated = true)
    (hreply : (trimStr reply).isEmpty = false) :
    officerRespondAlt q reply oid now = Except.error QErr.saveError
    ∧ officerForceResolve q now = Except.error QErr.saveError
    ∧ statusEnum.contains "officer-replied" = false
    ∧ escalationStatusEnum.contains "officer-replied" = false
    ∧ escalationStatusEnum.contains "resolved" = false :=
  ⟨officerRespondAlt_saveError q reply oid now hesc hreply,
    officerForceResolve_saveError q now hesc,
    by decide, by decide, by decide⟩

theorem C10_witness :
    officerRespondAlt exampleEscalated "Visit the field office" 9 30
      = Except.error QErr.saveError :=
  (C10_alt_routes_never_persist exampleEscalated "Visit the field office"
    9 30 (by decide) (by decide)).1

end Farmer
